import Mathlib

/-!
Shallow embedding of the serverless HTTP handlers of this repository:

* `api/register-zoom.js` (OAuth deployment variant, `handlerA` below, with
  token acquisition `getZoomAccessToken`);
* the static-token deployment variant of `register-zoom.js` (`handlerB` below);
* `pages/api/register-zoho.js` (`zohoHandler` below).

JavaScript values are modelled as follows: optional / possibly-undefined
string fields are `Option String` (with `none` = absent/undefined), and JS
string truthiness (`""` and `undefined` are falsy) is `truthy`.  The result of
`new Date(s).getTime()` is either a finite millisecond count or `NaN`; date
parsing is therefore an explicit parameter `parseDate : String → Option Int`
of each handler's environment (`none` = `NaN`), and JS numbers appearing in
the occurrence-matching loop are modelled by `JSNum` (finite / `Infinity` /
`NaN`) with JS comparison semantics (every comparison involving `NaN` is
false).  Outbound `fetch` calls are modelled by oracle fields in a `World`
structure giving each call's outcome (a rejection message, or a response),
and every handler returns, next to its HTTP response, the ordered list of
upstream calls it actually made.
-/

/-- A JSON value appearing in a response body (only strings and booleans occur
in these handlers). -/
inductive JVal where
  | s : String → JVal
  | b : Bool → JVal
deriving DecidableEq, Repr

/-- JS truthiness of a possibly-undefined string: `undefined` and `""` are
falsy, every other string is truthy. -/
def truthy : Option String → Bool
  | none => false
  | some s => s ≠ ""

/-- JS `a || dflt` for a possibly-undefined string `a`. -/
def jsOrStr (a : Option String) (dflt : String) : String :=
  match a with
  | none => dflt
  | some s => if s = "" then dflt else s

/-- A JS number as it occurs in the occurrence-matching code: a finite
millisecond count, `Infinity`, or `NaN`. -/
inductive JSNum where
  | nan : JSNum
  | inf : JSNum
  | fin : Int → JSNum
deriving DecidableEq, Repr

/-- JS `<` on numbers: any comparison with `NaN` is false. -/
def JSNum.lt : JSNum → JSNum → Bool
  | .fin a, .fin b => a < b
  | .fin _, .inf => true
  | _, _ => false

/-- JS `>` on numbers: `a > b` holds exactly when `b < a` (false on `NaN`). -/
def JSNum.gt (a b : JSNum) : Bool := JSNum.lt b a

/-- JS `Number.isFinite`. -/
def JSNum.isFinite : JSNum → Bool
  | .fin _ => true
  | _ => false

/-- JS `Math.abs`, restricted to the values reachable here. -/
def JSNum.abs : JSNum → JSNum
  | .fin v => .fin |v|
  | .inf => .inf
  | .nan => .nan

/-- JS subtraction, on the values reachable here: `getTime()` results are
finite or `NaN` (never `±Infinity`), and any operation on `NaN` yields
`NaN`. -/
def JSNum.sub : JSNum → JSNum → JSNum
  | .fin a, .fin b => .fin (a - b)
  | _, _ => .nan

/-- The value of `new Date(s).getTime()` under a parsing oracle
`parse : String → Option Int` (`none` = unparsable = `NaN`). -/
def dateVal (parse : String → Option Int) (s : String) : JSNum :=
  match parse s with
  | some v => .fin v
  | none => .nan

/-- JS `String.prototype.trim` (whitespace modelled by `Char.isWhitespace`). -/
def jsTrim (s : String) : String :=
  String.mk (((s.toList.dropWhile Char.isWhitespace).reverse.dropWhile
    Char.isWhitespace).reverse)

/-- Helper for `wsTokens`: scan the characters, accumulating the current
token (reversed) and emitting it at each whitespace run. -/
def wsTokensAux : List Char → List Char → List String
  | [], acc => if acc.isEmpty then [] else [String.mk acc.reverse]
  | c :: cs, acc =>
    if c.isWhitespace then
      if acc.isEmpty then wsTokensAux cs []
      else String.mk acc.reverse :: wsTokensAux cs []
    else wsTokensAux cs (c :: acc)

/-- The (nonempty) maximal whitespace-delimited tokens of a string. -/
def wsTokens (s : String) : List String := wsTokensAux s.toList []

/-- JS `s.split(/\s+/)` for a string with no leading whitespace (the handlers
only apply it to trimmed strings): the empty string yields `[""]`, any other
such string yields its whitespace-delimited tokens. -/
def jsSplitWS (s : String) : List String :=
  if s = "" then [""] else wsTokens s

/-- The name-splitting step of both Zoom handler variants:
`const nameParts = String(fullName).trim().split(/\s+/);
 const first_name = nameParts[0] || '';
 const last_name = nameParts.slice(1).join(' ') || '';`. -/
def splitName (fullName : String) : String × String :=
  let nameParts := jsSplitWS (jsTrim fullName)
  let first_name := jsOrStr (some (nameParts.headD "")) ""
  let last_name := jsOrStr (some (" ".intercalate (nameParts.drop 1))) ""
  (first_name, last_name)

/-- Spec-side description of the name split: first whitespace-delimited token
of the trimmed string, and the remaining tokens joined with single spaces
(empty when there are no remaining tokens).  Stated from the specification's
words, to be compared with `splitName` (which is translated from the code). -/
def specNameSplit (fullName : String) : String × String :=
  let toks := wsTokens (jsTrim fullName)
  (toks.headD "", " ".intercalate (toks.drop 1))

/-- A Zoom meeting occurrence as consumed by the handlers. -/
structure Occurrence where
  occurrence_id : String
  start_time : String
deriving DecidableEq, Repr

/-- The occurrence-matching loop of the OAuth variant (`api/register-zoom.js`):
`for (const occ of occurrences) {
   const occTime = new Date(occ.start_time).getTime();
   if (!Number.isFinite(occTime)) continue;
   const diff = Math.abs(occTime - targetTime);
   if (diff < bestDiff) { bestDiff = diff; bestOccurrence = occ; } }`
with accumulators `best = bestOccurrence` and `bestDiff` (initially
`null` / `Infinity`). -/
def matchLoopA (parse : String → Option Int) (target : JSNum) :
    List Occurrence → Option Occurrence → JSNum → Option Occurrence × JSNum
  | [], best, bestDiff => (best, bestDiff)
  | occ :: rest, best, bestDiff =>
    let occTime := dateVal parse occ.start_time
    if occTime.isFinite then
      let diff := (occTime.sub target).abs
      if diff.lt bestDiff then matchLoopA parse target rest (some occ) diff
      else matchLoopA parse target rest best bestDiff
    else matchLoopA parse target rest best bestDiff

/-- The occurrence-matching loop of the static-token variant: identical to
`matchLoopA` except that there is no `Number.isFinite` skip, so an unparsable
start time (or target) produces a `NaN` difference. -/
def matchLoopB (parse : String → Option Int) (target : JSNum) :
    List Occurrence → Option Occurrence → JSNum → Option Occurrence × JSNum
  | [], best, bestDiff => (best, bestDiff)
  | occ :: rest, best, bestDiff =>
    let occTime := dateVal parse occ.start_time
    let diff := (occTime.sub target).abs
    if diff.lt bestDiff then matchLoopB parse target rest (some occ) diff
    else matchLoopB parse target rest best bestDiff

/-- Absolute millisecond difference between an occurrence's parsed start time
and the target, as an integer (meaningful when the start time parses;
`getD 0` is never reached under that hypothesis). -/
def occDiff (parse : String → Option Int) (target : Int) (o : Occurrence) : Int :=
  |((parse o.start_time).getD 0) - target|

/-- Spec-side description of the selection: the first element of the list
minimizing `d`, together with its `d`-value (`none` on the empty list).
Stated from the specification's words ("the selected occurrence is the one
minimizing the difference; ties select the first such occurrence in list
order"), to be compared with the loops translated from the code. -/
def specFirstArgmin (d : Occurrence → Int) : List Occurrence → Option (Occurrence × Int)
  | [] => none
  | x :: xs =>
    match specFirstArgmin d xs with
    | none => some (x, d x)
    | some (y, dy) => if d x ≤ dy then some (x, d x) else some (y, dy)

/-- An HTTP response as produced by `res.status(n).json(body)`: the body is
the ordered list of the JSON object's fields. -/
structure HttpResponse where
  status : Nat
  body : List (String × JVal)
deriving DecidableEq, Repr

/-- Look up a field of a JSON response body. -/
def bodyGet (body : List (String × JVal)) (k : String) : Option JVal :=
  (body.find? (fun p => p.1 = k)).map Prod.snd

/-- The field names of a JSON response body, in order. -/
def bodyKeys (body : List (String × JVal)) : List String := body.map Prod.fst

/-- An error response `res.status(status).json({ success: false, error: msg })`,
common to every failure path of both Zoom handler variants. -/
def jsonErr (status : Nat) (msg : String) : HttpResponse :=
  ⟨status, [("success", .b false), ("error", .s msg)]⟩

/-- The top-level `catch` of both Zoom handler variants:
`res.status(500).json({ success: false, error: err.message || 'Internal server error' })`. -/
def catch500 (m : String) : HttpResponse :=
  jsonErr 500 (if m = "" then "Internal server error" else m)

/-- The JSON body of the registration POST: email, split name, and — only
when a role was supplied — a single custom question titled `Role` (modelled
as a `(title, value)` list). -/
structure RegBody where
  email : String
  first_name : String
  last_name : String
  custom_questions : Option (List (String × String))
deriving DecidableEq, Repr

/-- An upstream call made by a Zoom handler, in the order issued.  For the
registration call we record the value of the `occurrence_ids` query
parameter (before URI encoding; `none` when the URL carries no such
parameter) and the posted body. -/
inductive Call where
  | tokenExchange : Call
  | meetingFetch : Call
  | register : Option String → RegBody → Call
deriving DecidableEq, Repr

/-- The inbound request of a Zoom handler: HTTP method plus the JSON body's
four fields (absent fields are `none`). -/
structure ZoomRequest where
  method : String
  fullName : Option String
  email : Option String
  role : Option String
  sessionTimeSelected : Option String

/-- The registration body built by both Zoom handler variants from the
request: `{ email, first_name, last_name }`, plus
`custom_questions = [{ title: 'Role', value: role }]` when `role` is
truthy. -/
def regBodyOf (req : ZoomRequest) : RegBody :=
  let nm := splitName (req.fullName.getD "")
  { email := req.email.getD ""
    first_name := nm.1
    last_name := nm.2
    custom_questions :=
      if truthy req.role then some [("Role", req.role.getD "")] else none }

/-- Environment variables of the OAuth variant. -/
structure EnvA where
  meetingId : Option String
  accountId : Option String
  clientId : Option String
  clientSecret : Option String

/-- Environment variables of the static-token variant. -/
structure EnvB where
  meetingId : Option String
  token : Option String

/-- Oracle for the OAuth variant's outbound calls: date parsing, and for each
`fetch` either a rejection message (`…Throw = some m`, surfacing at the
top-level catch) or the response data the handler reads. -/
structure WorldA where
  parseDate : String → Option Int
  tokenThrow : Option String
  tokenOk : Bool
  tokenStatus : Nat
  tokenErrText : String
  accessToken : Option String
  meetingThrow : Option String
  meetingOk : Bool
  occurrences : Option (List Occurrence)
  regThrow : Option String
  regOk : Bool
  joinUrl : Option String
  registrantId : Option String
  regId : Option String

/-- Oracle for the static-token variant's outbound calls. -/
structure WorldB where
  parseDate : String → Option Int
  meetingThrow : Option String
  meetingOk : Bool
  occurrences : Option (List Occurrence)
  regThrow : Option String
  regOk : Bool
  joinUrl : Option String
  registrantId : Option String
  regId : Option String

/-- `getZoomAccessToken` of the OAuth variant: POSTs to the token endpoint;
throws `Zoom token error: <status> <text>` on a non-ok response, throws
`Zoom token response missing access_token` when the ok response lacks a
truthy `access_token`, and otherwise returns the token.  A `fetch` rejection
is an `Except.error` with the rejection's message. -/
def getZoomAccessToken (w : WorldA) : Except String String :=
  match w.tokenThrow with
  | some m => .error m
  | none =>
    if ¬ w.tokenOk then
      .error ("Zoom token error: " ++ toString w.tokenStatus ++ " " ++ w.tokenErrText)
    else if ¬ truthy w.accessToken then
      .error "Zoom token response missing access_token"
    else
      .ok (w.accessToken.getD "")

/-- The 6-hour guardrail threshold of the OAuth variant, in milliseconds. -/
def MAX_DIFF_MS : Int := 6 * 60 * 60 * 1000

/-- The OAuth variant of `api/register-zoom.js`, as a function from the
request, the environment variables and the upstream oracle to the HTTP
response paired with the ordered list of upstream calls made. -/
def handlerA (req : ZoomRequest) (env : EnvA) (w : WorldA) :
    HttpResponse × List Call :=
  if req.method ≠ "POST" then
    (jsonErr 405 "Method not allowed", [])
  else if ¬ (truthy req.fullName ∧ truthy req.email ∧ truthy req.sessionTimeSelected) then
    (jsonErr 400 "Missing required fields: fullName, email, sessionTimeSelected", [])
  else if ¬ (truthy env.meetingId ∧ truthy env.accountId ∧ truthy env.clientId ∧
      truthy env.clientSecret) then
    (jsonErr 500 "Server configuration error", [])
  else
    match getZoomAccessToken w with
    | .error m => (catch500 m, [.tokenExchange])
    | .ok _TOKEN =>
      match w.meetingThrow with
      | some m => (catch500 m, [.tokenExchange, .meetingFetch])
      | none =>
        if ¬ w.meetingOk then
          (jsonErr 500 "Failed to fetch Zoom meeting details", [.tokenExchange, .meetingFetch])
        else
          let occurrences := w.occurrences.getD []
          let targetTime := dateVal w.parseDate (req.sessionTimeSelected.getD "")
          if ¬ targetTime.isFinite then
            (jsonErr 400 "Invalid sessionTimeSelected timestamp",
              [.tokenExchange, .meetingFetch])
          else
            let sel := matchLoopA w.parseDate targetTime occurrences none .inf
            if sel.1.isSome ∧ sel.2.gt (.fin MAX_DIFF_MS) then
              (jsonErr 400 "Selected session time does not match any Zoom occurrence",
                [.tokenExchange, .meetingFetch])
            else
              let occParam : Option String :=
                match sel.1 with
                | some occ => if occ.occurrence_id ≠ "" then some occ.occurrence_id else none
                | none => none
              match w.regThrow with
              | some m =>
                (catch500 m, [.tokenExchange, .meetingFetch, .register occParam (regBodyOf req)])
              | none =>
                if ¬ w.regOk then
                  (jsonErr 500 "Zoom registration failed",
                    [.tokenExchange, .meetingFetch, .register occParam (regBodyOf req)])
                else
                  (⟨200, [("success", .b true),
                          ("join_url", .s (jsOrStr w.joinUrl "")),
                          ("registrant_id", .s (jsOrStr w.registrantId (jsOrStr w.regId ""))),
                          ("occurrence_id", .s ((sel.1.map Occurrence.occurrence_id).getD "")),
                          ("matched_start_time", .s ((sel.1.map Occurrence.start_time).getD ""))]⟩,
                   [.tokenExchange, .meetingFetch, .register occParam (regBodyOf req)])

/-- The static-token variant of `register-zoom.js`: no token exchange (the
bearer token comes from configuration), no finiteness check on the parsed
target time, no 6-hour guardrail, the registration URL carries
`occurrence_ids` whenever an occurrence was selected (no truthiness check on
its id), and the success body has no `matched_start_time` field. -/
def handlerB (req : ZoomRequest) (env : EnvB) (w : WorldB) :
    HttpResponse × List Call :=
  if req.method ≠ "POST" then
    (jsonErr 405 "Method not allowed", [])
  else if ¬ (truthy req.fullName ∧ truthy req.email ∧ truthy req.sessionTimeSelected) then
    (jsonErr 400 "Missing required fields: fullName, email, sessionTimeSelected", [])
  else if ¬ (truthy env.meetingId ∧ truthy env.token) then
    (jsonErr 500 "Server configuration error", [])
  else
    match w.meetingThrow with
    | some m => (catch500 m, [.meetingFetch])
    | none =>
      if ¬ w.meetingOk then
        (jsonErr 500 "Failed to fetch Zoom meeting details", [.meetingFetch])
      else
        let occurrences := w.occurrences.getD []
        let targetTime := dateVal w.parseDate (req.sessionTimeSelected.getD "")
        let sel := matchLoopB w.parseDate targetTime occurrences none .inf
        let occParam : Option String := sel.1.map Occurrence.occurrence_id
        match w.regThrow with
        | some m => (catch500 m, [.meetingFetch, .register occParam (regBodyOf req)])
        | none =>
          if ¬ w.regOk then
            (jsonErr 500 "Zoom registration failed",
              [.meetingFetch, .register occParam (regBodyOf req)])
          else
            (⟨200, [("success", .b true),
                    ("join_url", .s (jsOrStr w.joinUrl "")),
                    ("registrant_id", .s (jsOrStr w.registrantId (jsOrStr w.regId ""))),
                    ("occurrence_id", .s ((sel.1.map Occurrence.occurrence_id).getD ""))]⟩,
             [.meetingFetch, .register occParam (regBodyOf req)])

/-- The body of a Zoho relay response: a JSON object (`res.json(...)`) or raw
text (`res.send(...)`). -/
inductive ZohoBody where
  | json : List (String × JVal) → ZohoBody
  | text : String → ZohoBody
deriving DecidableEq, Repr

/-- A Zoho relay response: status, optional `Allow` header, body. -/
structure ZohoResponse where
  status : Nat
  allow : Option String
  body : ZohoBody
deriving DecidableEq, Repr

/-- The single outbound call the Zoho relay can make: a POST of the
(re-serialized) inbound JSON body to the configured webhook URL. -/
structure ZohoCall where
  url : String
  method : String
  body : String
deriving DecidableEq, Repr

/-- Oracle for the Zoho relay's `fetch`: either a rejection (message of the
thrown error, `""` when the error has no message) or the upstream status
paired with the response text (the `r.text().catch(() => "")` fallback makes
the text total). -/
structure ZohoWorld where
  upstream : Except String (Nat × String)

/-- `pages/api/register-zoho.js`: POST-only relay that forwards the inbound
JSON body to `process.env.ZOHO_URL` and passes through the upstream status
and text (`text || "ok"`).  The inbound body is modelled by its JSON
serialization `body : String`, forwarded unchanged
(`JSON.stringify(req.body)`).  Returns the response and the upstream call
made, if any. -/
def zohoHandler (method : String) (body : String) (zohoUrl : Option String)
    (w : ZohoWorld) : ZohoResponse × Option ZohoCall :=
  if method ≠ "POST" then
    (⟨405, some "POST", .json [("error", .s "Method not allowed")]⟩, none)
  else if ¬ truthy zohoUrl then
    (⟨500, none, .json [("error", .s "ZOHO_URL is not set")]⟩, none)
  else
    let call : ZohoCall := ⟨zohoUrl.getD "", "POST", body⟩
    match w.upstream with
    | .error e =>
      (⟨500, none, .json [("error", .s (if e = "" then "Zoho proxy error" else e))]⟩,
        some call)
    | .ok (st, text) =>
      (⟨st, none, .text (if text = "" then "ok" else text)⟩, some call)

/-- Parsing oracle for concrete runs: the sample target parses to 0 ms and
three occurrence start strings parse to fixed offsets (one minute earlier,
exactly six hours later, one day later); everything else is unparsable. -/
def sampleParse : String → Option Int := fun s =>
  if s = "2024-05-01T10:00:00Z" then some 0
  else if s = "2024-05-01T09:59:00Z" then some (-60000)
  else if s = "2024-05-01T16:00:00Z" then some 21600000
  else if s = "2024-05-02T10:00:00Z" then some 86400000
  else none

/-- A well-formed sample request. -/
def sampleReq : ZoomRequest :=
  { method := "POST", fullName := some "Ann Lee", email := some "a@x.com",
    role := none, sessionTimeSelected := some "2024-05-01T10:00:00Z" }

/-- The sample request with an unparsable session time. -/
def unparsableReq : ZoomRequest :=
  { sampleReq with sessionTimeSelected := some "not-a-date" }

/-- Sample environment for the OAuth variant. -/
def sampleEnvA : EnvA :=
  { meetingId := some "86", accountId := some "acc", clientId := some "cid",
    clientSecret := some "sec" }

/-- Sample environment for the static-token variant. -/
def sampleEnvB : EnvB := { meetingId := some "86", token := some "tkn" }

/-- Two sample occurrences: one a minute before the sample target, one a day
after it. -/
def sampleOccs : List Occurrence :=
  [{ occurrence_id := "1", start_time := "2024-05-01T09:59:00Z" },
   { occurrence_id := "2", start_time := "2024-05-02T10:00:00Z" }]

/-- An occurrence a full day away from the sample target. -/
def farOcc : Occurrence := { occurrence_id := "far", start_time := "2024-05-02T10:00:00Z" }

/-- An occurrence exactly six hours away from the sample target. -/
def sixHourOcc : Occurrence := { occurrence_id := "6", start_time := "2024-05-01T16:00:00Z" }

/-- An occurrence whose start time does not parse. -/
def badOcc : Occurrence := { occurrence_id := "bad", start_time := "garbage" }

/-- Fully successful upstream oracle for the OAuth variant. -/
def sampleWorldA : WorldA :=
  { parseDate := sampleParse, tokenThrow := none, tokenOk := true, tokenStatus := 200,
    tokenErrText := "", accessToken := some "tkn", meetingThrow := none, meetingOk := true,
    occurrences := some sampleOccs, regThrow := none, regOk := true,
    joinUrl := some "https://zoom.us/j/1", registrantId := some "r1", regId := none }

/-- The successful oracle, with the ok token response missing its
`access_token` field. -/
def noTokenWorldA : WorldA := { sampleWorldA with accessToken := none }

/-- The successful oracle with a single occurrence a day away. -/
def farWorldA : WorldA := { sampleWorldA with occurrences := some [farOcc] }

/-- The successful oracle with a single occurrence exactly six hours away. -/
def sixHourWorldA : WorldA := { sampleWorldA with occurrences := some [sixHourOcc] }

/-- The successful oracle with the occurrence list empty. -/
def emptyOccWorldA : WorldA := { sampleWorldA with occurrences := some [] }

/-- Fully successful upstream oracle for the static-token variant. -/
def sampleWorldB : WorldB :=
  { parseDate := sampleParse, meetingThrow := none, meetingOk := true,
    occurrences := some sampleOccs, regThrow := none, regOk := true,
    joinUrl := some "https://zoom.us/j/1", registrantId := some "r1", regId := none }

/-- The static-token oracle with a single occurrence a day away. -/
def farWorldB : WorldB := { sampleWorldB with occurrences := some [farOcc] }

/-- A GET request (everything else as in the sample request). -/
def getReq : ZoomRequest := { sampleReq with method := "GET" }

/-- Auxiliary order fact: if a finite value beats the bound, so does any
smaller finite value. -/
theorem JSNum.lt_of_lt_of_int_lt {bd : JSNum} {a c : Int}
    (h : (JSNum.fin a).lt bd = true) (hc : c < a) : (JSNum.fin c).lt bd = true := by
  cases bd <;> simp [JSNum.lt] at h ⊢ <;> omega

/-- Auxiliary order fact: if a finite value does not beat the bound, neither
does any larger finite value. -/
theorem JSNum.not_lt_of_not_lt_of_int_le {bd : JSNum} {a c : Int}
    (h : (JSNum.fin a).lt bd = false) (hc : a ≤ c) : (JSNum.fin c).lt bd = false := by
  cases bd <;> simp [JSNum.lt] at h ⊢ <;> omega

/-- When every start time parses, the strict-improvement loop of the OAuth
variant computes exactly the first minimizer of `occDiff` whose difference
beats the incoming bound (for any accumulator state). -/
theorem matchLoopA_eq_specFirstArgmin (parse : String → Option Int) (target : Int)
    (xs : List Occurrence) (hall : ∀ o ∈ xs, (parse o.start_time).isSome = true) :
    ∀ (best : Option Occurrence) (bd : JSNum),
    matchLoopA parse (.fin target) xs best bd =
      match specFirstArgmin (occDiff parse target) xs with
      | none => (best, bd)
      | some (y, dy) =>
        if (JSNum.fin dy).lt bd = true then (some y, .fin dy) else (best, bd) := by
  induction xs with
  | nil => intro best bd; simp [matchLoopA, specFirstArgmin]
  | cons x rest ih =>
    intro best bd
    obtain ⟨v, hv⟩ := Option.isSome_iff_exists.mp (hall x (by simp))
    have hrest : ∀ o ∈ rest, (parse o.start_time).isSome = true := by
      intro o ho; exact hall o (by simp [ho])
    have hx : dateVal parse x.start_time = .fin v := by simp [dateVal, hv]
    have hdx : ((JSNum.fin v).sub (.fin target)).abs = .fin (occDiff parse target x) := by
      simp [JSNum.sub, JSNum.abs, occDiff, hv]
    simp only [matchLoopA, hx, JSNum.isFinite, hdx, specFirstArgmin, if_true]
    by_cases hlt : (JSNum.fin (occDiff parse target x)).lt bd = true
    · simp only [hlt, if_true, ih hrest]
      cases hfa : specFirstArgmin (occDiff parse target) rest with
      | none => simp [hlt]
      | some p =>
        obtain ⟨y, dy⟩ := p
        by_cases hle : occDiff parse target x ≤ dy
        · have hnlt : (JSNum.fin dy).lt (JSNum.fin (occDiff parse target x)) = false := by
            simp [JSNum.lt]; omega
          simp [hle, hnlt, hlt]
        · have hdylt : (JSNum.fin dy).lt (JSNum.fin (occDiff parse target x)) = true := by
            simp [JSNum.lt]; omega
          have hdybd : (JSNum.fin dy).lt bd = true :=
            JSNum.lt_of_lt_of_int_lt hlt (by omega)
          simp [hle, hdylt, hdybd]
    · rw [Bool.not_eq_true] at hlt
      simp only [hlt, if_false, ih hrest]
      cases hfa : specFirstArgmin (occDiff parse target) rest with
      | none => simp [hlt]
      | some p =>
        obtain ⟨y, dy⟩ := p
        by_cases hle : occDiff parse target x ≤ dy
        · have hdynlt : (JSNum.fin dy).lt bd = false :=
            JSNum.not_lt_of_not_lt_of_int_le hlt hle
          simp [hle, hlt, hdynlt]
        · simp [hle]

/-- When every start time parses and the target is finite, the static-token
variant's loop (no finiteness skip) behaves exactly like the OAuth
variant's. -/
theorem matchLoopB_eq_matchLoopA (parse : String → Option Int) (target : Int)
    (xs : List Occurrence) (hall : ∀ o ∈ xs, (parse o.start_time).isSome = true) :
    ∀ (best : Option Occurrence) (bd : JSNum),
    matchLoopB parse (.fin target) xs best bd = matchLoopA parse (.fin target) xs best bd := by
  induction xs with
  | nil => intro best bd; simp [matchLoopA, matchLoopB]
  | cons x rest ih =>
    intro best bd
    obtain ⟨v, hv⟩ := Option.isSome_iff_exists.mp (hall x (by simp))
    have hrest : ∀ o ∈ rest, (parse o.start_time).isSome = true := by
      intro o ho; exact hall o (by simp [ho])
    have hx : dateVal parse x.start_time = .fin v := by simp [dateVal, hv]
    simp only [matchLoopA, matchLoopB, hx, JSNum.isFinite, if_true]
    by_cases hlt : (((JSNum.fin v).sub (.fin target)).abs).lt bd = true
    · simp [hlt, ih hrest]
    · rw [Bool.not_eq_true] at hlt
      simp [hlt, ih hrest]

/-- With a `NaN` target (unparsable `sessionTimeSelected`), every difference
in the static-token variant's loop is `NaN`, so the strict-less-than update
never fires and the accumulator passes through unchanged. -/
theorem matchLoopB_nan_target (parse : String → Option Int) (xs : List Occurrence) :
    ∀ (best : Option Occurrence) (bd : JSNum),
    matchLoopB parse .nan xs best bd = (best, bd) := by
  induction xs with
  | nil => intro best bd; simp [matchLoopB]
  | cons x rest ih =>
    intro best bd
    have hsub : ((dateVal parse x.start_time).sub .nan).abs = .nan := by
      cases h : dateVal parse x.start_time <;> simp [JSNum.sub, JSNum.abs]
    simp only [matchLoopB, hsub]
    simp [JSNum.lt, ih]

/-- `specFirstArgmin` returns the first minimizer: its result is an element
of the list achieving the minimum `d`-value, and every strictly earlier
element has a strictly larger `d`-value. -/
theorem specFirstArgmin_is_first_min (d : Occurrence → Int) (xs : List Occurrence)
    (hne : xs ≠ []) :
    ∃ (i : Nat) (h : i < xs.length),
      specFirstArgmin d xs = some (xs[i], d xs[i]) ∧
      (∀ (j : Nat) (hj : j < xs.length), d xs[i] ≤ d xs[j]) ∧
      (∀ (j : Nat) (hj : j < xs.length), j < i → d xs[i] < d xs[j]) := by
  induction xs with
  | nil => exact absurd rfl hne
  | cons x rest ih =>
    by_cases hr : rest = []
    · subst hr
      refine ⟨0, by simp, by simp [specFirstArgmin], ?_, ?_⟩
      · intro j hj
        have hj0 : j = 0 := by simpa using hj
        subst hj0
        simp
      · intro j hj hji
        omega
    · obtain ⟨i, h, heq, hmin, hstrict⟩ := ih hr
      by_cases hle : d x ≤ d rest[i]
      · refine ⟨0, by simp, ?_, ?_, ?_⟩
        · simp [specFirstArgmin, heq, hle]
        · intro j hj
          cases j with
          | zero => simp
          | succ j =>
            have hj' : j < rest.length := by simpa using hj
            have := hmin j hj'
            simpa using le_trans hle this
        · intro j hj hji
          omega
      · refine ⟨i + 1, by simpa using Nat.succ_lt_succ h, ?_, ?_, ?_⟩
        · simpa [specFirstArgmin, heq, hle] using rfl
        · intro j hj
          cases j with
          | zero => simpa using le_of_lt (lt_of_not_le hle)
          | succ j =>
            have hj' : j < rest.length := by simpa using hj
            simpa using hmin j hj'
        · intro j hj hji
          cases j with
          | zero => simpa using lt_of_not_le hle
          | succ j =>
            have hj' : j < rest.length := by simpa using hj
            simpa using hstrict j hj' (by omega)

/-- The OAuth variant's loop ignores occurrences with unparsable start
times: running it on the list with those entries filtered out gives the same
result, from any accumulator state. -/
theorem matchLoopA_filter_parsable (parse : String → Option Int) (target : JSNum)
    (xs : List Occurrence) :
    ∀ (best : Option Occurrence) (bd : JSNum),
    matchLoopA parse target xs best bd =
      matchLoopA parse target (xs.filter (fun o => (parse o.start_time).isSome)) best bd := by
  induction xs with
  | nil => intro best bd; simp
  | cons x rest ih =>
    intro best bd
    cases hv : parse x.start_time with
    | none =>
      have hx : dateVal parse x.start_time = .nan := by simp [dateVal, hv]
      simp only [matchLoopA, hx, JSNum.isFinite, List.filter_cons, hv]
      simpa using ih best bd
    | some v =>
      have hx : dateVal parse x.start_time = .fin v := by simp [dateVal, hv]
      simp [matchLoopA, hx, JSNum.isFinite, List.filter_cons, hv]
      by_cases hlt : (((JSNum.fin v).sub target).abs).lt bd = true
      · simp only [hlt, if_true]
        exact ih (some x) _
      · rw [Bool.not_eq_true] at hlt
        simp only [hlt, if_false]
        exact ih best bd

/-- The static-token variant's loop also ignores occurrences with unparsable
start times (their `NaN` difference never satisfies the strict-less-than
comparison), so filtering them out gives the same result. -/
theorem matchLoopB_filter_parsable (parse : String → Option Int) (target : JSNum)
    (xs : List Occurrence) :
    ∀ (best : Option Occurrence) (bd : JSNum),
    matchLoopB parse target xs best bd =
      matchLoopB parse target (xs.filter (fun o => (parse o.start_time).isSome)) best bd := by
  induction xs with
  | nil => intro best bd; simp
  | cons x rest ih =>
    intro best bd
    cases hv : parse x.start_time with
    | none =>
      have hx : dateVal parse x.start_time = .nan := by simp [dateVal, hv]
      have hdiff : ((dateVal parse x.start_time).sub target).abs = .nan := by
        rw [hx]; cases target <;> simp [JSNum.sub, JSNum.abs]
      simp only [matchLoopB, hdiff, JSNum.lt, List.filter_cons, hv]
      simpa using ih best bd
    | some v =>
      simp [matchLoopB, List.filter_cons, hv]
      by_cases hlt : (((dateVal parse x.start_time).sub target).abs).lt bd = true
      · simp only [hlt, if_true]
        exact ih (some x) _
      · rw [Bool.not_eq_true] at hlt
        simp only [hlt, if_false]
        exact ih best bd

/-- An occurrence selected by the OAuth variant's loop always has a parsable
start time (given that the incoming accumulator does). -/
theorem matchLoopA_selected_parsable (parse : String → Option Int) (target : JSNum)
    (xs : List Occurrence) :
    ∀ (best : Option Occurrence) (bd : JSNum),
    (∀ o, best = some o → (parse o.start_time).isSome = true) →
    ∀ o, (matchLoopA parse target xs best bd).1 = some o →
      (parse o.start_time).isSome = true := by
  induction xs with
  | nil =>
    intro best bd hbest o ho
    exact hbest o (by simpa [matchLoopA] using ho)
  | cons x rest ih =>
    intro best bd hbest o ho
    cases hv : parse x.start_time with
    | none =>
      have hx : dateVal parse x.start_time = .nan := by simp [dateVal, hv]
      rw [matchLoopA] at ho
      simp only [hx, JSNum.isFinite] at ho
      exact ih best bd hbest o (by simpa using ho)
    | some v =>
      have hx : dateVal parse x.start_time = .fin v := by simp [dateVal, hv]
      rw [matchLoopA] at ho
      simp only [hx, JSNum.isFinite, if_true] at ho
      by_cases hlt : (((JSNum.fin v).sub target).abs).lt bd = true
      · simp only [hlt, if_true] at ho
        refine ih _ _ ?_ o ho
        intro o' ho'
        cases ho'
        simp [hv]
      · rw [Bool.not_eq_true] at hlt
        simp only [hlt, if_false] at ho
        exact ih best bd hbest o ho

/-- An occurrence selected by the static-token variant's loop always has a
parsable start time: an unparsable entry yields a `NaN` difference, which
never satisfies the strict-less-than update. -/
theorem matchLoopB_selected_parsable (parse : String → Option Int) (target : JSNum)
    (xs : List Occurrence) :
    ∀ (best : Option Occurrence) (bd : JSNum),
    (∀ o, best = some o → (parse o.start_time).isSome = true) →
    ∀ o, (matchLoopB parse target xs best bd).1 = some o →
      (parse o.start_time).isSome = true := by
  induction xs with
  | nil =>
    intro best bd hbest o ho
    exact hbest o (by simpa [matchLoopB] using ho)
  | cons x rest ih =>
    intro best bd hbest o ho
    cases hv : parse x.start_time with
    | none =>
      have hx : dateVal parse x.start_time = .nan := by simp [dateVal, hv]
      have hdiff : ((dateVal parse x.start_time).sub target).abs = .nan := by
        rw [hx]; cases target <;> simp [JSNum.sub, JSNum.abs]
      rw [matchLoopB] at ho
      simp only [hdiff, JSNum.lt] at ho
      exact ih best bd hbest o (by simpa using ho)
    | some v =>
      rw [matchLoopB] at ho
      by_cases hlt : (((dateVal parse x.start_time).sub target).abs).lt bd = true
      · simp only [hlt, if_true] at ho
        refine ih _ _ ?_ o ho
        intro o' ho'
        cases ho'
        simp [hv]
      · rw [Bool.not_eq_true] at hlt
        simp only [hlt, if_false] at ho
        exact ih best bd hbest o ho

/-- Response-shape facts for the OAuth variant: a 200 response is the
success body (five fixed fields, success true), and every non-200 response
has status 400, 405 or 500 with exactly the `success`/`error` fields and
success false (the top-level catch included, since `catch500` is a
`jsonErr 500 _`). -/
theorem handlerA_response_facts (req : ZoomRequest) (env : EnvA) (w : WorldA) :
    ((handlerA req env w).1.status = 200 →
      bodyKeys (handlerA req env w).1.body =
        ["success", "join_url", "registrant_id", "occurrence_id", "matched_start_time"] ∧
      bodyGet (handlerA req env w).1.body "success" = some (.b true)) ∧
    ((handlerA req env w).1.status ≠ 200 →
      (handlerA req env w).1.status ∈ ([400, 405, 500] : List Nat) ∧
      bodyKeys (handlerA req env w).1.body = ["success", "error"] ∧
      bodyGet (handlerA req env w).1.body "success" = some (.b false)) := by
  unfold handlerA
  dsimp only
  repeat' split
  all_goals refine ⟨fun h => ?_, fun h => ?_⟩
  all_goals simp [jsonErr, catch500, bodyGet, bodyKeys] at h ⊢

/-- Response-shape facts for the static-token variant: a 200 response is the
success body (four fixed fields, success true), and every non-200 response
has status 400, 405 or 500 with exactly the `success`/`error` fields and
success false. -/
theorem handlerB_response_facts (req : ZoomRequest) (env : EnvB) (w : WorldB) :
    ((handlerB req env w).1.status = 200 →
      bodyKeys (handlerB req env w).1.body =
        ["success", "join_url", "registrant_id", "occurrence_id"] ∧
      bodyGet (handlerB req env w).1.body "success" = some (.b true)) ∧
    ((handlerB req env w).1.status ≠ 200 →
      (handlerB req env w).1.status ∈ ([400, 405, 500] : List Nat) ∧
      bodyKeys (handlerB req env w).1.body = ["success", "error"] ∧
      bodyGet (handlerB req env w).1.body "success" = some (.b false)) := by
  unfold handlerB
  dsimp only
  repeat' split
  all_goals refine ⟨fun h => ?_, fun h => ?_⟩
  all_goals simp [jsonErr, catch500, bodyGet, bodyKeys] at h ⊢

/-- Filtering unparsable-start-time occurrences out of the fetched list
leaves the OAuth variant's entire outcome (response and calls) unchanged. -/
theorem handlerA_filter_occurrences (req : ZoomRequest) (env : EnvA) (w : WorldA)
    (xs : List Occurrence) :
    handlerA req env { w with occurrences := some xs } =
    handlerA req env
      { w with occurrences := some (xs.filter (fun o => (w.parseDate o.start_time).isSome)) } := by
  obtain ⟨pd, t1, t2, t3, t4, t5, m1, m2, occ, r1, r2, r3, r4, r5⟩ := w
  unfold handlerA getZoomAccessToken
  simp only [Option.getD_some]
  rw [matchLoopA_filter_parsable pd (dateVal pd (req.sessionTimeSelected.getD "")) xs]

/-- Filtering unparsable-start-time occurrences out of the fetched list
leaves the static-token variant's entire outcome unchanged. -/
theorem handlerB_filter_occurrences (req : ZoomRequest) (env : EnvB) (w : WorldB)
    (xs : List Occurrence) :
    handlerB req env { w with occurrences := some xs } =
    handlerB req env
      { w with occurrences := some (xs.filter (fun o => (w.parseDate o.start_time).isSome)) } := by
  obtain ⟨pd, m1, m2, occ, r1, r2, r3, r4, r5⟩ := w
  unfold handlerB
  simp only [Option.getD_some]
  rw [matchLoopB_filter_parsable pd (dateVal pd (req.sessionTimeSelected.getD "")) xs]

/-- JS `x || ''` is the identity on strings. -/
theorem jsOrStr_some_empty (x : String) : jsOrStr (some x) "" = x := by
  by_cases h : x = "" <;> simp [jsOrStr, h]

/-- C5: for every non-empty `fullName`, the name split yields as first name
the first whitespace-delimited token of the trimmed string and as last name
the remaining tokens joined with single spaces (empty when there is no
remainder), i.e. `splitName` agrees with the spec-side `specNameSplit`; in
particular `"Jane Q Public"` splits into `"Jane"` / `"Q Public"` and
`"Solo"` has an empty last name. -/
theorem C5_name_split :
    (∀ fullName : String, fullName ≠ "" → splitName fullName = specNameSplit fullName) ∧
    splitName "Jane Q Public" = ("Jane", "Q Public") ∧
    splitName "Solo" = ("Solo", "") := by
  refine ⟨?_, by decide, by decide⟩
  intro s _hs
  unfold splitName specNameSplit
  by_cases h : jsTrim s = ""
  · rw [h]
    decide
  · simp [jsSplitWS, h, jsOrStr_some_empty]

/-- Witness for C5 at the spec's concrete example. -/
theorem C5_name_split_witness :
    "Jane Q Public" ≠ "" ∧ splitName "Jane Q Public" = specNameSplit "Jane Q Public" :=
  ⟨by decide, C5_name_split.1 "Jane Q Public" (by decide)⟩

/-- C7: the Zoho relay on POST requests: an unconfigured webhook URL yields
500 with the ConfigError message and no upstream call; otherwise the inbound
body is forwarded unchanged via POST to the configured URL and the
upstream's status and text pass through (the literal `"ok"` substituted for
an empty body); a throwing forward call yields 500 reporting the underlying
message (with a generic fallback for an empty message). -/
theorem C7_zoho_relay :
    (∀ (body : String) (zohoUrl : Option String) (w : ZohoWorld),
      truthy zohoUrl = false →
      zohoHandler "POST" body zohoUrl w =
        (⟨500, none, .json [("error", .s "ZOHO_URL is not set")]⟩, none)) ∧
    (∀ (body : String) (zohoUrl : Option String) (w : ZohoWorld) (st : Nat) (text : String),
      truthy zohoUrl = true → w.upstream = .ok (st, text) →
      zohoHandler "POST" body zohoUrl w =
        (⟨st, none, .text (if text = "" then "ok" else text)⟩,
         some ⟨zohoUrl.getD "", "POST", body⟩)) ∧
    (∀ (body : String) (zohoUrl : Option String) (w : ZohoWorld) (e : String),
      truthy zohoUrl = true → w.upstream = .error e →
      zohoHandler "POST" body zohoUrl w =
        (⟨500, none, .json [("error", .s (if e = "" then "Zoho proxy error" else e))]⟩,
         some ⟨zohoUrl.getD "", "POST", body⟩)) := by
  refine ⟨?_, ?_, ?_⟩
  · intro body zohoUrl w hurl
    simp [zohoHandler, hurl]
  · intro body zohoUrl w st text hurl hup
    simp [zohoHandler, hurl, hup]
  · intro body zohoUrl w e hurl hup
    simp [zohoHandler, hurl, hup]

/-- Witness for C7: a configured URL with a 202/empty-body upstream gives a
pass-through 202 with body "ok", and an unconfigured URL gives the 500. -/
theorem C7_zoho_relay_witness :
    (truthy (none : Option String) = false ∧
      zohoHandler "POST" "payload" none ⟨.ok (202, "")⟩ =
        (⟨500, none, .json [("error", .s "ZOHO_URL is not set")]⟩, none)) ∧
    (truthy (some "https://hook.example") = true ∧
      zohoHandler "POST" "payload" (some "https://hook.example") ⟨.ok (202, "")⟩ =
        (⟨202, none, .text "ok"⟩, some ⟨"https://hook.example", "POST", "payload"⟩)) :=
  ⟨⟨by decide, C7_zoho_relay.1 "payload" none ⟨.ok (202, "")⟩ (by decide)⟩,
   ⟨by decide, C7_zoho_relay.2.1 "payload" (some "https://hook.example") ⟨.ok (202, "")⟩
      202 "" (by decide) rfl⟩⟩

/-- C8: token acquisition returns a bearer token exactly when the token
endpoint responded (no rejection) with a success status and a truthy
`access_token`; in every other case it throws, and — whenever the handler
reaches the token step — the thrown failure surfaces through the top-level
catch as an HTTP 500 response with success false, after exactly one token
call and no retry. -/
theorem C8_token_acquisition :
    (∀ w : WorldA, w.tokenThrow = none →
      ((∃ t, getZoomAccessToken w = .ok t) ↔
        (w.tokenOk = true ∧ truthy w.accessToken = true))) ∧
    (∀ (req : ZoomRequest) (env : EnvA) (w : WorldA) (m : String),
      req.method = "POST" →
      truthy req.fullName = true → truthy req.email = true →
      truthy req.sessionTimeSelected = true →
      truthy env.meetingId = true → truthy env.accountId = true →
      truthy env.clientId = true → truthy env.clientSecret = true →
      getZoomAccessToken w = .error m →
      handlerA req env w = (catch500 m, [.tokenExchange]) ∧
        (catch500 m).status = 500 ∧
        bodyGet (catch500 m).body "success" = some (.b false)) := by
  constructor
  · intro w ht
    unfold getZoomAccessToken
    rw [ht]
    by_cases h1 : w.tokenOk <;> by_cases h2 : truthy w.accessToken = true <;>
        simp [h1, h2]
  · intro req env w m hm hfn he hs hc1 hc2 hc3 hc4 herr
    refine ⟨?_, rfl, by simp [catch500, jsonErr, bodyGet]⟩
    unfold handlerA
    simp [hm, hfn, he, hs, hc1, hc2, hc3, hc4, herr]

/-- Witness for C8: the sample oracle has an ok token response with a truthy
token, and the oracle whose token response lacks `access_token` drives the
handler to the catch-produced 500. -/
theorem C8_token_acquisition_witness :
    ((∃ t, getZoomAccessToken sampleWorldA = .ok t) ↔
      (sampleWorldA.tokenOk = true ∧ truthy sampleWorldA.accessToken = true)) ∧
    (handlerA sampleReq sampleEnvA noTokenWorldA =
        (catch500 "Zoom token response missing access_token", [.tokenExchange]) ∧
      (catch500 "Zoom token response missing access_token").status = 500 ∧
      bodyGet (catch500 "Zoom token response missing access_token").body "success" =
        some (.b false)) :=
  ⟨C8_token_acquisition.1 sampleWorldA rfl,
   C8_token_acquisition.2 sampleReq sampleEnvA noTokenWorldA
     "Zoom token response missing access_token" rfl (by decide) (by decide) (by decide)
     (by decide) (by decide) (by decide) (by decide) rfl⟩

/-- C2: when every occurrence start time parses and the target parses, the
occurrence-matching loop of each variant selects exactly one occurrence —
the one minimizing the absolute difference of parsed start time and target —
and on ties the first such occurrence in list order (the strict-less-than
update never replaces an equal-difference earlier match): the result is
pinned to index `i`, whose difference is a global minimum and strictly
smaller than every earlier entry's. -/
theorem C2_closest_first_selected (parse : String → Option Int) (target : Int)
    (xs : List Occurrence) (hall : ∀ o ∈ xs, (parse o.start_time).isSome = true)
    (hne : xs ≠ []) :
    ∃ (i : Nat) (h : i < xs.length),
      matchLoopA parse (.fin target) xs none .inf =
        (some xs[i], .fin (occDiff parse target xs[i])) ∧
      matchLoopB parse (.fin target) xs none .inf =
        (some xs[i], .fin (occDiff parse target xs[i])) ∧
      (∀ (j : Nat) (hj : j < xs.length),
        occDiff parse target xs[i] ≤ occDiff parse target xs[j]) ∧
      (∀ (j : Nat) (hj : j < xs.length), j < i →
        occDiff parse target xs[i] < occDiff parse target xs[j]) := by
  obtain ⟨i, h, heq, hmin, hstrict⟩ :=
    specFirstArgmin_is_first_min (occDiff parse target) xs hne
  refine ⟨i, h, ?_, ?_, hmin, hstrict⟩
  · rw [matchLoopA_eq_specFirstArgmin parse target xs hall none .inf, heq]
    simp [JSNum.lt]
  · rw [matchLoopB_eq_matchLoopA parse target xs hall none .inf,
      matchLoopA_eq_specFirstArgmin parse target xs hall none .inf, heq]
    simp [JSNum.lt]

/-- Witness for C2 on the spec's end-to-end scenario: both sample
occurrences parse, and the loop picks the 60-second-away first occurrence
over the day-away second one. -/
theorem C2_closest_first_selected_witness :
    (∀ o ∈ sampleOccs, (sampleParse o.start_time).isSome = true) ∧
    ∃ (i : Nat) (h : i < sampleOccs.length),
      matchLoopA sampleParse (.fin 0) sampleOccs none .inf =
        (some sampleOccs[i], .fin (occDiff sampleParse 0 sampleOccs[i])) ∧
      matchLoopB sampleParse (.fin 0) sampleOccs none .inf =
        (some sampleOccs[i], .fin (occDiff sampleParse 0 sampleOccs[i])) ∧
      (∀ (j : Nat) (hj : j < sampleOccs.length),
        occDiff sampleParse 0 sampleOccs[i] ≤ occDiff sampleParse 0 sampleOccs[j]) ∧
      (∀ (j : Nat) (hj : j < sampleOccs.length), j < i →
        occDiff sampleParse 0 sampleOccs[i] < occDiff sampleParse 0 sampleOccs[j]) :=
  ⟨by decide, C2_closest_first_selected sampleParse 0 sampleOccs (by decide) (by decide)⟩

/-- C4: occurrences with unparsable start times are never selected (in both
variants — in the static-token one because a `NaN` difference never
satisfies the strict-less-than comparison), and their presence neither
changes the selection over the parsable entries nor fails the request:
filtering them out leaves both loops' results and both handlers' entire
outcomes unchanged. -/
theorem C4_unparsable_occurrences_skipped :
    (∀ (parse : String → Option Int) (target : JSNum) (xs : List Occurrence)
        (best : Option Occurrence) (bd : JSNum),
      matchLoopA parse target xs best bd =
        matchLoopA parse target (xs.filter (fun o => (parse o.start_time).isSome)) best bd) ∧
    (∀ (parse : String → Option Int) (target : JSNum) (xs : List Occurrence)
        (best : Option Occurrence) (bd : JSNum),
      matchLoopB parse target xs best bd =
        matchLoopB parse target (xs.filter (fun o => (parse o.start_time).isSome)) best bd) ∧
    (∀ (parse : String → Option Int) (target : JSNum) (xs : List Occurrence) (o : Occurrence),
      (matchLoopA parse target xs none .inf).1 = some o →
        (parse o.start_time).isSome = true) ∧
    (∀ (parse : String → Option Int) (target : JSNum) (xs : List Occurrence) (o : Occurrence),
      (matchLoopB parse target xs none .inf).1 = some o →
        (parse o.start_time).isSome = true) ∧
    (∀ (req : ZoomRequest) (env : EnvA) (w : WorldA) (xs : List Occurrence),
      handlerA req env { w with occurrences := some xs } =
        handlerA req env
          { w with occurrences := some (xs.filter (fun o => (w.parseDate o.start_time).isSome)) }) ∧
    (∀ (req : ZoomRequest) (env : EnvB) (w : WorldB) (xs : List Occurrence),
      handlerB req env { w with occurrences := some xs } =
        handlerB req env
          { w with occurrences := some (xs.filter (fun o => (w.parseDate o.start_time).isSome)) }) := by
  refine ⟨?_, ?_, ?_, ?_, ?_, ?_⟩
  · intro parse target xs best bd
    exact matchLoopA_filter_parsable parse target xs best bd
  · intro parse target xs best bd
    exact matchLoopB_filter_parsable parse target xs best bd
  · intro parse target xs o ho
    exact matchLoopA_selected_parsable parse target xs none .inf (by simp) o ho
  · intro parse target xs o ho
    exact matchLoopB_selected_parsable parse target xs none .inf (by simp) o ho
  · intro req env w xs
    exact handlerA_filter_occurrences req env w xs
  · intro req env w xs
    exact handlerB_filter_occurrences req env w xs

/-- Witness for C4: with an unparsable occurrence ahead of a parsable one,
the parsable one is selected (so its start time parses), and filtering the
bad entry out leaves the loop result unchanged. -/
theorem C4_unparsable_occurrences_skipped_witness :
    (sampleParse farOcc.start_time).isSome = true ∧
    matchLoopA sampleParse (.fin 0) [badOcc, farOcc] none .inf =
      matchLoopA sampleParse (.fin 0)
        ([badOcc, farOcc].filter (fun o => (sampleParse o.start_time).isSome)) none .inf :=
  ⟨C4_unparsable_occurrences_skipped.2.2.2.1 sampleParse (.fin 0) [badOcc, farOcc] farOcc
     (by decide),
   C4_unparsable_occurrences_skipped.1 sampleParse (.fin 0) [badOcc, farOcc] none .inf⟩

/-- C10: each Zoom handler variant maps any request to exactly one response
(it is a total function to a single response), whose body's success field is
true exactly when the status is 200; every 400, 405 and 500 response — the
top-level catch's included — carries success false, and no other status
occurs. -/
theorem C10_success_iff_200 :
    ∀ (req : ZoomRequest) (envA : EnvA) (wA : WorldA) (envB : EnvB) (wB : WorldB),
      ((bodyGet (handlerA req envA wA).1.body "success" = some (.b true)) ↔
        (handlerA req envA wA).1.status = 200) ∧
      ((handlerA req envA wA).1.status ≠ 200 →
        bodyGet (handlerA req envA wA).1.body "success" = some (.b false)) ∧
      (handlerA req envA wA).1.status ∈ ([200, 400, 405, 500] : List Nat) ∧
      ((bodyGet (handlerB req envB wB).1.body "success" = some (.b true)) ↔
        (handlerB req envB wB).1.status = 200) ∧
      ((handlerB req envB wB).1.status ≠ 200 →
        bodyGet (handlerB req envB wB).1.body "success" = some (.b false)) ∧
      (handlerB req envB wB).1.status ∈ ([200, 400, 405, 500] : List Nat) := by
  intro req envA wA envB wB
  obtain ⟨hA200, hAerr⟩ := handlerA_response_facts req envA wA
  obtain ⟨hB200, hBerr⟩ := handlerB_response_facts req envB wB
  refine ⟨⟨fun hs => ?_, fun h200 => (hA200 h200).2⟩, fun hne => (hAerr hne).2.2, ?_,
          ⟨fun hs => ?_, fun h200 => (hB200 h200).2⟩, fun hne => (hBerr hne).2.2, ?_⟩
  · by_contra hne
    have hfalse := (hAerr hne).2.2
    rw [hs] at hfalse
    simp at hfalse
  · by_cases h : (handlerA req envA wA).1.status = 200
    · simp [h]
    · have hmem := (hAerr h).1
      simp at hmem ⊢
      omega
  · by_contra hne
    have hfalse := (hBerr hne).2.2
    rw [hs] at hfalse
    simp at hfalse
  · by_cases h : (handlerB req envB wB).1.status = 200
    · simp [h]
    · have hmem := (hBerr h).1
      simp at hmem ⊢
      omega

/-- Witness for C10: a GET request against the OAuth variant yields a non-200
response whose body carries success false. -/
theorem C10_success_iff_200_witness :
    bodyGet (handlerA getReq sampleEnvA sampleWorldA).1.body "success" = some (.b false) :=
  (C10_success_iff_200 getReq sampleEnvA sampleWorldA sampleEnvB sampleWorldB).2.1 (by decide)

/-- C9 counterexample: a fully successful run of the OAuth variant returns
200, but its body's fields are not exactly `success`, `join_url`,
`registrant_id`, `occurrence_id` — the debug field `matched_start_time` is
also present. -/
theorem C9_counterexample :
    (handlerA sampleReq sampleEnvA sampleWorldA).1.status = 200 ∧
    bodyKeys (handlerA sampleReq sampleEnvA sampleWorldA).1.body ≠
      ["success", "join_url", "registrant_id", "occurrence_id"] := by decide

/-- C9 (amended): every 200 response of the static-token variant has exactly
the fields `success`, `join_url`, `registrant_id`, `occurrence_id`; the
OAuth variant's 200 response has exactly those four plus the
`matched_start_time` debug field. -/
theorem C9_success_body_fields (req : ZoomRequest) (envA : EnvA) (wA : WorldA)
    (envB : EnvB) (wB : WorldB) :
    ((handlerA req envA wA).1.status = 200 →
      bodyKeys (handlerA req envA wA).1.body =
        ["success", "join_url", "registrant_id", "occurrence_id", "matched_start_time"]) ∧
    ((handlerB req envB wB).1.status = 200 →
      bodyKeys (handlerB req envB wB).1.body =
        ["success", "join_url", "registrant_id", "occurrence_id"]) :=
  ⟨fun h => ((handlerA_response_facts req envA wA).1 h).1,
   fun h => ((handlerB_response_facts req envB wB).1 h).1⟩

/-- Witness for C9 on fully successful runs of both variants. -/
theorem C9_success_body_fields_witness :
    bodyKeys (handlerA sampleReq sampleEnvA sampleWorldA).1.body =
      ["success", "join_url", "registrant_id", "occurrence_id", "matched_start_time"] ∧
    bodyKeys (handlerB sampleReq sampleEnvB sampleWorldB).1.body =
      ["success", "join_url", "registrant_id", "occurrence_id"] :=
  ⟨(C9_success_body_fields sampleReq sampleEnvA sampleWorldA sampleEnvB sampleWorldB).1
      (by decide),
   (C9_success_body_fields sampleReq sampleEnvA sampleWorldA sampleEnvB sampleWorldB).2
      (by decide)⟩

/-- C6: when the fetched meeting's occurrence list is empty or absent, no
occurrence is selected, the registration call carries no `occurrence_ids`
query parameter, the pipeline does not fail on that account (given the
upstream calls succeed it returns 200), and the success body's
`occurrence_id` field is the empty string. -/
theorem C6_empty_occurrence_list (req : ZoomRequest) (env : EnvA) (w : WorldA)
    (hm : req.method = "POST")
    (hfn : truthy req.fullName = true) (he : truthy req.email = true)
    (hs : truthy req.sessionTimeSelected = true)
    (hc1 : truthy env.meetingId = true) (hc2 : truthy env.accountId = true)
    (hc3 : truthy env.clientId = true) (hc4 : truthy env.clientSecret = true)
    (ht : w.tokenThrow = none) (hok : w.tokenOk = true) (hat : truthy w.accessToken = true)
    (hmt : w.meetingThrow = none) (hmo : w.meetingOk = true)
    (hocc : w.occurrences = none ∨ w.occurrences = some [])
    (tv : Int) (htv : w.parseDate (req.sessionTimeSelected.getD "") = some tv)
    (hrt : w.regThrow = none) (hro : w.regOk = true) :
    handlerA req env w =
      (⟨200, [("success", .b true),
              ("join_url", .s (jsOrStr w.joinUrl "")),
              ("registrant_id", .s (jsOrStr w.registrantId (jsOrStr w.regId ""))),
              ("occurrence_id", .s ""),
              ("matched_start_time", .s "")]⟩,
       [.tokenExchange, .meetingFetch, .register none (regBodyOf req)]) := by
  have htok : getZoomAccessToken w = .ok (w.accessToken.getD "") := by
    unfold getZoomAccessToken
    rw [ht]
    simp [hok, hat]
  have hoccl : w.occurrences.getD [] = [] := by
    rcases hocc with h | h <;> simp [h]
  have hdv : dateVal w.parseDate (req.sessionTimeSelected.getD "") = .fin tv := by
    simp [dateVal, htv]
  unfold handlerA
  simp [hm, hfn, he, hs, hc1, hc2, hc3, hc4, htok, hmt, hmo, hoccl, hdv, hrt, hro,
    matchLoopA, JSNum.isFinite]

/-- Witness for C6 with an empty occurrence list on otherwise successful
upstream calls. -/
theorem C6_empty_occurrence_list_witness :
    handlerA sampleReq sampleEnvA emptyOccWorldA =
      (⟨200, [("success", .b true),
              ("join_url", .s (jsOrStr emptyOccWorldA.joinUrl "")),
              ("registrant_id",
                .s (jsOrStr emptyOccWorldA.registrantId (jsOrStr emptyOccWorldA.regId ""))),
              ("occurrence_id", .s ""),
              ("matched_start_time", .s "")]⟩,
       [.tokenExchange, .meetingFetch, .register none (regBodyOf sampleReq)]) :=
  C6_empty_occurrence_list sampleReq sampleEnvA emptyOccWorldA rfl (by decide) (by decide)
    (by decide) (by decide) (by decide) (by decide) (by decide) (by decide) (by decide)
    (by decide) (by decide) (by decide) (Or.inr (by decide)) 0 (by decide) (by decide)
    (by decide)

/-- C1 counterexample: with an unparsable `sessionTimeSelected` and all
upstream calls succeeding, the OAuth variant does return 400 — but only
after the token exchange and the meeting fetch were made — and the
static-token variant returns 200 (making a registration call) rather than
400, refuting the claim that each variant returns 400 before any upstream
call. -/
theorem C1_counterexample :
    (handlerA unparsableReq sampleEnvA sampleWorldA).1.status = 400 ∧
    (handlerA unparsableReq sampleEnvA sampleWorldA).2 = [.tokenExchange, .meetingFetch] ∧
    (handlerB unparsableReq sampleEnvB sampleWorldB).1.status = 200 ∧
    Call.register none (regBodyOf unparsableReq) ∈
      (handlerB unparsableReq sampleEnvB sampleWorldB).2 := by decide

/-- C1 (amended): for an unparsable `sessionTimeSelected`, the OAuth variant
returns HTTP 400 with success false before the registration call, but only
after the token exchange and the meeting fetch; the static-token variant
performs no such validation: it selects no occurrence and proceeds to the
registration call without an `occurrence_ids` parameter, returning 200 when
the upstream calls succeed. -/
theorem C1_unparsable_target :
    (∀ (req : ZoomRequest) (env : EnvA) (w : WorldA),
      req.method = "POST" →
      truthy req.fullName = true → truthy req.email = true →
      truthy req.sessionTimeSelected = true →
      truthy env.meetingId = true → truthy env.accountId = true →
      truthy env.clientId = true → truthy env.clientSecret = true →
      w.tokenThrow = none → w.tokenOk = true → truthy w.accessToken = true →
      w.meetingThrow = none → w.meetingOk = true →
      w.parseDate (req.sessionTimeSelected.getD "") = none →
      handlerA req env w =
        (jsonErr 400 "Invalid sessionTimeSelected timestamp",
         [.tokenExchange, .meetingFetch])) ∧
    (∀ (req : ZoomRequest) (env : EnvB) (w : WorldB),
      req.method = "POST" →
      truthy req.fullName = true → truthy req.email = true →
      truthy req.sessionTimeSelected = true →
      truthy env.meetingId = true → truthy env.token = true →
      w.meetingThrow = none → w.meetingOk = true →
      w.parseDate (req.sessionTimeSelected.getD "") = none →
      w.regThrow = none → w.regOk = true →
      handlerB req env w =
        (⟨200, [("success", .b true),
                ("join_url", .s (jsOrStr w.joinUrl "")),
                ("registrant_id", .s (jsOrStr w.registrantId (jsOrStr w.regId ""))),
                ("occurrence_id", .s "")]⟩,
         [.meetingFetch, .register none (regBodyOf req)])) := by
  constructor
  · intro req env w hm hfn he hs hc1 hc2 hc3 hc4 ht hok hat hmt hmo htv
    have htok : getZoomAccessToken w = .ok (w.accessToken.getD "") := by
      unfold getZoomAccessToken
      rw [ht]
      simp [hok, hat]
    have hdv : dateVal w.parseDate (req.sessionTimeSelected.getD "") = .nan := by
      simp [dateVal, htv]
    unfold handlerA
    simp [hm, hfn, he, hs, hc1, hc2, hc3, hc4, htok, hmt, hmo, hdv, JSNum.isFinite]
  · intro req env w hm hfn he hs hc1 hc2 hmt hmo htv hrt hro
    have hdv : dateVal w.parseDate (req.sessionTimeSelected.getD "") = .nan := by
      simp [dateVal, htv]
    unfold handlerB
    simp [hm, hfn, he, hs, hc1, hc2, hmt, hmo, hdv, hrt, hro, matchLoopB_nan_target]

/-- Witness for C1 (amended) at the concrete unparsable request. -/
theorem C1_unparsable_target_witness :
    handlerA unparsableReq sampleEnvA sampleWorldA =
      (jsonErr 400 "Invalid sessionTimeSelected timestamp",
       [.tokenExchange, .meetingFetch]) ∧
    handlerB unparsableReq sampleEnvB sampleWorldB =
      (⟨200, [("success", .b true),
              ("join_url", .s (jsOrStr sampleWorldB.joinUrl "")),
              ("registrant_id",
                .s (jsOrStr sampleWorldB.registrantId (jsOrStr sampleWorldB.regId ""))),
              ("occurrence_id", .s "")]⟩,
       [.meetingFetch, .register none (regBodyOf unparsableReq)]) :=
  ⟨C1_unparsable_target.1 unparsableReq sampleEnvA sampleWorldA rfl (by decide) (by decide)
     (by decide) (by decide) (by decide) (by decide) (by decide) (by decide) (by decide)
     (by decide) (by decide) (by decide) (by decide),
   C1_unparsable_target.2 unparsableReq sampleEnvB sampleWorldB rfl (by decide) (by decide)
     (by decide) (by decide) (by decide) (by decide) (by decide) (by decide) (by decide)
     (by decide)⟩

/-- C3 counterexample: the static-token variant has no distance guardrail:
with a single occurrence a full day (more than 6 hours) from the target it
still registers against it and returns 200, refuting the claim for "each
deployment variant". -/
theorem C3_counterexample :
    MAX_DIFF_MS < occDiff sampleParse 0 farOcc ∧
    (handlerB sampleReq sampleEnvB farWorldB).1.status = 200 ∧
    (handlerB sampleReq sampleEnvB farWorldB).2 =
      [.meetingFetch, .register (some "far") (regBodyOf sampleReq)] := by decide

/-- C3 (amended): in the OAuth variant, when an occurrence is selected and
its difference strictly exceeds 6 hours the handler returns HTTP 400 with
success false and makes no registration call, while at exactly 6 hours it
proceeds to register; the static-token variant has no such guardrail and
registers regardless of the difference. -/
theorem C3_six_hour_guardrail :
    (∀ (req : ZoomRequest) (env : EnvA) (w : WorldA) (tv : Int) (o : Occurrence) (dv : Int),
      req.method = "POST" →
      truthy req.fullName = true → truthy req.email = true →
      truthy req.sessionTimeSelected = true →
      truthy env.meetingId = true → truthy env.accountId = true →
      truthy env.clientId = true → truthy env.clientSecret = true →
      w.tokenThrow = none → w.tokenOk = true → truthy w.accessToken = true →
      w.meetingThrow = none → w.meetingOk = true →
      w.parseDate (req.sessionTimeSelected.getD "") = some tv →
      matchLoopA w.parseDate (.fin tv) (w.occurrences.getD []) none .inf = (some o, .fin dv) →
      MAX_DIFF_MS < dv →
      handlerA req env w =
        (jsonErr 400 "Selected session time does not match any Zoom occurrence",
         [.tokenExchange, .meetingFetch])) ∧
    (∀ (req : ZoomRequest) (env : EnvA) (w : WorldA) (tv : Int) (o : Occurrence),
      req.method = "POST" →
      truthy req.fullName = true → truthy req.email = true →
      truthy req.sessionTimeSelected = true →
      truthy env.meetingId = true → truthy env.accountId = true →
      truthy env.clientId = true → truthy env.clientSecret = true →
      w.tokenThrow = none → w.tokenOk = true → truthy w.accessToken = true →
      w.meetingThrow = none → w.meetingOk = true →
      w.parseDate (req.sessionTimeSelected.getD "") = some tv →
      matchLoopA w.parseDate (.fin tv) (w.occurrences.getD []) none .inf =
        (some o, .fin MAX_DIFF_MS) →
      w.regThrow = none → w.regOk = true →
      handlerA req env w =
        (⟨200, [("success", .b true),
                ("join_url", .s (jsOrStr w.joinUrl "")),
                ("registrant_id", .s (jsOrStr w.registrantId (jsOrStr w.regId ""))),
                ("occurrence_id", .s o.occurrence_id),
                ("matched_start_time", .s o.start_time)]⟩,
         [.tokenExchange, .meetingFetch,
          .register (if o.occurrence_id ≠ "" then some o.occurrence_id else none)
            (regBodyOf req)])) ∧
    (∀ (req : ZoomRequest) (env : EnvB) (w : WorldB) (tv : Int) (o : Occurrence) (dv : Int),
      req.method = "POST" →
      truthy req.fullName = true → truthy req.email = true →
      truthy req.sessionTimeSelected = true →
      truthy env.meetingId = true → truthy env.token = true →
      w.meetingThrow = none → w.meetingOk = true →
      w.parseDate (req.sessionTimeSelected.getD "") = some tv →
      matchLoopB w.parseDate (.fin tv) (w.occurrences.getD []) none .inf = (some o, .fin dv) →
      MAX_DIFF_MS < dv →
      w.regThrow = none → w.regOk = true →
      handlerB req env w =
        (⟨200, [("success", .b true),
                ("join_url", .s (jsOrStr w.joinUrl "")),
                ("registrant_id", .s (jsOrStr w.registrantId (jsOrStr w.regId ""))),
                ("occurrence_id", .s o.occurrence_id)]⟩,
         [.meetingFetch, .register (some o.occurrence_id) (regBodyOf req)])) := by
  refine ⟨?_, ?_, ?_⟩
  · intro req env w tv o dv hm hfn he hs hc1 hc2 hc3 hc4 ht hok hat hmt hmo htv hsel hdv
    have htok : getZoomAccessToken w = .ok (w.accessToken.getD "") := by
      unfold getZoomAccessToken
      rw [ht]
      simp [hok, hat]
    have hdvv : dateVal w.parseDate (req.sessionTimeSelected.getD "") = .fin tv := by
      simp [dateVal, htv]
    have hgt : (JSNum.fin dv).gt (.fin MAX_DIFF_MS) = true := by
      simp [JSNum.gt, JSNum.lt]
      omega
    unfold handlerA
    simp [hm, hfn, he, hs, hc1, hc2, hc3, hc4, htok, hmt, hmo, hdvv, hsel, hgt,
      JSNum.isFinite]
  · intro req env w tv o hm hfn he hs hc1 hc2 hc3 hc4 ht hok hat hmt hmo htv hsel hrt hro
    have htok : getZoomAccessToken w = .ok (w.accessToken.getD "") := by
      unfold getZoomAccessToken
      rw [ht]
      simp [hok, hat]
    have hdvv : dateVal w.parseDate (req.sessionTimeSelected.getD "") = .fin tv := by
      simp [dateVal, htv]
    have hngt : (JSNum.fin MAX_DIFF_MS).gt (.fin MAX_DIFF_MS) = false := by
      simp [JSNum.gt, JSNum.lt]
    unfold handlerA
    simp [hm, hfn, he, hs, hc1, hc2, hc3, hc4, htok, hmt, hmo, hdvv, hsel, hngt, hrt, hro,
      JSNum.isFinite]
  · intro req env w tv o dv hm hfn he hs hc1 hc2 hmt hmo htv hsel hdv hrt hro
    have hdvv : dateVal w.parseDate (req.sessionTimeSelected.getD "") = .fin tv := by
      simp [dateVal, htv]
    unfold handlerB
    simp [hm, hfn, he, hs, hc1, hc2, hmt, hmo, hdvv, hsel, hrt, hro]

/-- Witness for C3 (amended): an occurrence a day away makes the OAuth
variant reject with 400 and no registration call; one exactly six hours away
is registered; the static-token variant registers the day-away occurrence. -/
theorem C3_six_hour_guardrail_witness :
    handlerA sampleReq sampleEnvA farWorldA =
      (jsonErr 400 "Selected session time does not match any Zoom occurrence",
       [.tokenExchange, .meetingFetch]) ∧
    handlerA sampleReq sampleEnvA sixHourWorldA =
      (⟨200, [("success", .b true),
              ("join_url", .s (jsOrStr sixHourWorldA.joinUrl "")),
              ("registrant_id",
                .s (jsOrStr sixHourWorldA.registrantId (jsOrStr sixHourWorldA.regId ""))),
              ("occurrence_id", .s sixHourOcc.occurrence_id),
              ("matched_start_time", .s sixHourOcc.start_time)]⟩,
       [.tokenExchange, .meetingFetch,
        .register (if sixHourOcc.occurrence_id ≠ "" then some sixHourOcc.occurrence_id
          else none) (regBodyOf sampleReq)]) ∧
    handlerB sampleReq sampleEnvB farWorldB =
      (⟨200, [("success", .b true),
              ("join_url", .s (jsOrStr farWorldB.joinUrl "")),
              ("registrant_id",
                .s (jsOrStr farWorldB.registrantId (jsOrStr farWorldB.regId ""))),
              ("occurrence_id", .s farOcc.occurrence_id)]⟩,
       [.meetingFetch, .register (some farOcc.occurrence_id) (regBodyOf sampleReq)]) :=
  ⟨C3_six_hour_guardrail.1 sampleReq sampleEnvA farWorldA 0 farOcc 86400000 rfl (by decide)
     (by decide) (by decide) (by decide) (by decide) (by decide) (by decide) (by decide)
     (by decide) (by decide) (by decide) (by decide) (by decide) (by decide) (by decide),
   C3_six_hour_guardrail.2.1 sampleReq sampleEnvA sixHourWorldA 0 sixHourOcc rfl (by decide)
     (by decide) (by decide) (by decide) (by decide) (by decide) (by decide) (by decide)
     (by decide) (by decide) (by decide) (by decide) (by decide) (by decide) (by decide)
     (by decide),
   C3_six_hour_guardrail.2.2 sampleReq sampleEnvB farWorldB 0 farOcc 86400000 rfl (by decide)
     (by decide) (by decide) (by decide) (by decide) (by decide) (by decide) (by decide)
     (by decide) (by decide) (by decide) (by decide)⟩
